import Mathlib

/-!
Shallow embedding of browser_use/browser/browser.py: the browser-connection
lifecycle (strategy selection, reuse-or-launch attach with bounded polling,
idempotent lazy connection, exception-swallowing teardown) together with a
small-step interleaving model of the cooperative async scheduler for the
concurrency claims.  Machine effects (HTTP probes, process spawn, protocol
attach, driver start/stop) are modelled as environment oracles supplying the
outcome of each external call; the embedded functions return traces recording
how many times each external call was made and the final result or error.
-/

namespace BrowserUse

/-- Playwright ProxySettings (playwright._impl._api_structures): only the
shape matters here, no claim inspects the fields. -/
structure ProxySettings where
  server : String
  bypass : Option String := none
  username : Option String := none
  password : Option String := none
deriving Repr, DecidableEq

/-- BrowserConfig from browser.py.  The new_context_config field is an
external collaborator (browser_use.browser.context, not part of the core)
and carries no data any claim depends on, so it is omitted.  The Lean field
force_keep_browser_alive models the Python field _force_keep_browser_alive. -/
structure BrowserConfig where
  headless : Bool := false
  disable_security : Bool := true
  extra_chromium_args : List String := []
  chrome_instance_path : Option String := none
  wss_url : Option String := none
  cdp_url : Option String := none
  enable_adblock : Bool := false
  proxy : Option ProxySettings := none
  force_keep_browser_alive : Bool := false
deriving Repr

/-- Python truthiness of an optional string field: None and the empty string
are falsy, every other string is truthy.  This is the test that
if self.config.cdp_url: etc. perform. -/
def truthy : Option String → Bool
  | none => false
  | some s => !s.isEmpty

/-- The four connection strategies dispatched by Browser._setup_browser,
named after the methods of browser.py. -/
inductive Strategy
  | setup_cdp
  | setup_wss
  | setup_browser_with_instance
  | setup_standard_browser
deriving DecidableEq, Repr

/-- Browser._setup_browser, viewed as the list of strategy methods it
invokes.  The source dispatches with an if / if / elif / else chain in which
every branch returns (or raises) immediately, so each run invokes exactly
the strategies in this list:
  if cdp_url: return setup_cdp; if wss_url: return setup_wss;
  elif chrome_instance_path: return setup_browser_with_instance;
  else: return setup_standard_browser.
The surrounding try/except logs and re-raises, adding no fallback. -/
def setup_browser_attempts (cfg : BrowserConfig) : List Strategy :=
  if truthy cfg.cdp_url then [.setup_cdp]
  else if truthy cfg.wss_url then [.setup_wss]
  else if truthy cfg.chrome_instance_path then [.setup_browser_with_instance]
  else [.setup_standard_browser]

/-- Outcome of one requests.get call against the local debugging endpoint.
The classification mirrors the requests exception hierarchy:
requests.ConnectionError covers refused/failed connections and also
ConnectTimeout (a ConnectionError subclass), while ReadTimeout derives from
requests.Timeout only, and other exceptions (invalid URL and so on) are
unrelated to ConnectionError.  An HTTP response that arrives is a status. -/
inductive ProbeOutcome
  | status (code : Nat)
  | connError
  | readTimeout
  | otherError
deriving DecidableEq, Repr

/-- Errors with which _setup_browser_with_instance can terminate.
valueError is the missing-path ValueError; uncaughtProbe is a requests
exception that no except clause in the method catches; attachFailed is a
playwright connect error propagating from the reuse branch; launchFailed is
a subprocess.Popen exception; runtimeError is the final RuntimeError the
catch-all except turns the last attach failure into. -/
inductive StratError
  | valueError
  | uncaughtProbe (e : ProbeOutcome)
  | attachFailed
  | launchFailed
  | runtimeError
deriving DecidableEq, Repr

/-- Oracle for one run of _setup_browser_with_instance: the outcome of the
k-th requests.get probe (k = 0 is the initial reuse check, k = 1..10 the
poll-loop attempts), the outcome of subprocess.Popen, and the outcome of the
single connect_over_cdp call the run performs (each run executes at most one
of the two attach sites).  An attach success carries the browser handle id. -/
structure InstanceEnv where
  probes : Nat → ProbeOutcome
  spawn : Except Unit Unit
  attach : Except Unit Nat

/-- Trace of one run of _setup_browser_with_instance: how many requests.get
probes, subprocess.Popen spawns, connect_over_cdp attach calls and
asyncio.sleep(1) waits it performed, and its result. -/
structure StratTrace where
  probeCalls : Nat
  spawnCalls : Nat
  attachCalls : Nat
  sleeps : Nat
  result : Except StratError Nat
deriving Repr

/-- Outcome of the for-loop over range(10) that polls the endpoint. -/
inductive PollOutcome
  | reachable
  | exhausted
  | raised (e : ProbeOutcome)
deriving DecidableEq, Repr

/-- Trace of the poll loop: probes made, sleeps made, and how it ended. -/
structure PollTrace where
  probeCalls : Nat
  sleeps : Nat
  outcome : PollOutcome
deriving DecidableEq, Repr

/-- The poll loop of _setup_browser_with_instance:
for each of fuel remaining iterations, probe the endpoint (probe index idx);
a 200 response breaks out with no further sleep; any other status or a
caught requests.ConnectionError falls through to asyncio.sleep(1) and the
next iteration; any other exception (for example ReadTimeout, which the
except requests.ConnectionError clause does not catch) propagates at once. -/
def pollLoop (env : InstanceEnv) (idx fuel : Nat) : PollTrace :=
  match fuel with
  | 0 => { probeCalls := 0, sleeps := 0, outcome := .exhausted }
  | f + 1 =>
    match env.probes idx with
    | .status code =>
        if code = 200 then { probeCalls := 1, sleeps := 0, outcome := .reachable }
        else
          { probeCalls := (pollLoop env (idx + 1) f).probeCalls + 1,
            sleeps := (pollLoop env (idx + 1) f).sleeps + 1,
            outcome := (pollLoop env (idx + 1) f).outcome }
    | .connError =>
        { probeCalls := (pollLoop env (idx + 1) f).probeCalls + 1,
          sleeps := (pollLoop env (idx + 1) f).sleeps + 1,
          outcome := (pollLoop env (idx + 1) f).outcome }
    | .readTimeout => { probeCalls := 1, sleeps := 0, outcome := .raised .readTimeout }
    | .otherError => { probeCalls := 1, sleeps := 0, outcome := .raised .otherError }

/-- The part of _setup_browser_with_instance after the initial reuse check
failed to return: spawn a new Chrome via subprocess.Popen (a spawn exception
propagates), run the 10-iteration poll loop (an uncaught probe exception
propagates), then attempt one final connect_over_cdp whose failure the
catch-all except converts into RuntimeError.  The initial probe is already
counted in the returned trace (probeCalls starts from 1). -/
def instanceSpawnPhase (env : InstanceEnv) : StratTrace :=
  match env.spawn with
  | .error _ =>
      { probeCalls := 1, spawnCalls := 1, attachCalls := 0, sleeps := 0,
        result := .error .launchFailed }
  | .ok _ =>
      match (pollLoop env 1 10).outcome with
      | .raised e =>
          { probeCalls := 1 + (pollLoop env 1 10).probeCalls, spawnCalls := 1,
            attachCalls := 0, sleeps := (pollLoop env 1 10).sleeps,
            result := .error (.uncaughtProbe e) }
      | _ =>
          match env.attach with
          | .ok b =>
              { probeCalls := 1 + (pollLoop env 1 10).probeCalls, spawnCalls := 1,
                attachCalls := 1, sleeps := (pollLoop env 1 10).sleeps,
                result := .ok b }
          | .error _ =>
              { probeCalls := 1 + (pollLoop env 1 10).probeCalls, spawnCalls := 1,
                attachCalls := 1, sleeps := (pollLoop env 1 10).sleeps,
                result := .error .runtimeError }

/-- Browser._setup_browser_with_instance.  Raises ValueError when the
configured chrome_instance_path is falsy.  Otherwise probes
localhost:9222/json/version once: a 200 response leads to a direct
connect_over_cdp whose result (success or propagated failure) ends the run
with no spawn; a non-200 status falls through the try block, and a caught
requests.ConnectionError falls through the except clause, both continuing
into the spawn-and-poll phase; any other requests exception propagates. -/
def setup_browser_with_instance (cfg : BrowserConfig) (env : InstanceEnv) : StratTrace :=
  if truthy cfg.chrome_instance_path = false then
    { probeCalls := 0, spawnCalls := 0, attachCalls := 0, sleeps := 0,
      result := .error .valueError }
  else
    match env.probes 0 with
    | .status code =>
        if code = 200 then
          match env.attach with
          | .ok b =>
              { probeCalls := 1, spawnCalls := 0, attachCalls := 1, sleeps := 0,
                result := .ok b }
          | .error _ =>
              { probeCalls := 1, spawnCalls := 0, attachCalls := 1, sleeps := 0,
                result := .error .attachFailed }
        else instanceSpawnPhase env
    | .connError => instanceSpawnPhase env
    | .readTimeout =>
        { probeCalls := 1, spawnCalls := 0, attachCalls := 0, sleeps := 0,
          result := .error (.uncaughtProbe .readTimeout) }
    | .otherError =>
        { probeCalls := 1, spawnCalls := 0, attachCalls := 0, sleeps := 0,
          result := .error (.uncaughtProbe .otherError) }

/-- The two mutable reference fields of a Browser object: self.playwright
(the driver handle) and self.playwright_browser (the connection handle),
each an opaque handle modelled by a Nat id. -/
structure BrowserState where
  playwright : Option Nat
  playwright_browser : Option Nat
deriving DecidableEq, Repr

/-- Oracle for one run of Browser.close(): the outcome of
self.playwright_browser.close() and of self.playwright.stop(). -/
structure CloseEnv where
  browser_close : Except Unit Unit
  playwright_stop : Except Unit Unit

/-- Trace of one run of Browser.close(): how many underlying close and stop
calls were made, the state of the two reference fields afterwards, whether
an exception escaped close() itself, and whether the except branch logged a
suppressed teardown failure. -/
structure CloseTrace where
  browser_close_calls : Nat
  stop_calls : Nat
  state : BrowserState
  raised : Bool
  logged : Bool
deriving DecidableEq, Repr

/-- Second half of the try block of close(): if self.playwright is set, call
its stop(); a stop exception aborts the block.  The pair counts
(browser close calls, stop calls); an error value carries the counts made
before the exception. -/
def close_stop_step (s : BrowserState) (env : CloseEnv) (bc : Nat) :
    Except (Nat × Nat) (Nat × Nat) :=
  match s.playwright with
  | none => .ok (bc, 0)
  | some _ =>
      match env.playwright_stop with
      | .ok _ => .ok (bc, 1)
      | .error _ => .error (bc, 1)

/-- The try block of close(): skipped entirely when the keep-alive override
flag is set; otherwise close the browser handle if present (an exception
aborts the block before stop() is reached), then stop the driver if
present. -/
def close_body (cfg : BrowserConfig) (s : BrowserState) (env : CloseEnv) :
    Except (Nat × Nat) (Nat × Nat) :=
  if cfg.force_keep_browser_alive then .ok (0, 0)
  else
    match s.playwright_browser with
    | none => close_stop_step s env 0
    | some _ =>
        match env.browser_close with
        | .ok _ => close_stop_step s env 1
        | .error _ => .error (1, 0)

/-- Browser.close(): run the try block; except Exception catches any failure
and logs it, so no exception escapes; the finally block unconditionally
resets both reference fields to None. -/
def close (cfg : BrowserConfig) (s : BrowserState) (env : CloseEnv) : CloseTrace :=
  match close_body cfg s env with
  | .ok (bc, sc) =>
      { browser_close_calls := bc, stop_calls := sc,
        state := { playwright := none, playwright_browser := none },
        raised := false, logged := false }
  | .error (bc, sc) =>
      { browser_close_calls := bc, stop_calls := sc,
        state := { playwright := none, playwright_browser := none },
        raised := false, logged := true }

/-- Oracle for one run of Browser._init: the outcome of
async_playwright().start() (a driver handle id) and of
self._setup_browser(playwright) (a browser handle id). -/
structure InitEnv where
  start : Except Unit Nat
  setup : Except Unit Nat

/-- Trace of one run of get_playwright_browser or _init: the returned value
or propagated error, the reference fields afterwards, and how many times
async_playwright().start() and _setup_browser were invoked. -/
structure ConnectTrace where
  result : Except Unit Nat
  state : BrowserState
  start_calls : Nat
  setup_calls : Nat
deriving Repr

/-- Browser._init: start the driver, run strategy selection and execution;
only after both succeed are self.playwright and self.playwright_browser
assigned, so any failure propagates with both fields unchanged. -/
def init_browser (s : BrowserState) (env : InitEnv) : ConnectTrace :=
  match env.start with
  | .error e => { result := .error e, state := s, start_calls := 1, setup_calls := 0 }
  | .ok p =>
      match env.setup with
      | .error e => { result := .error e, state := s, start_calls := 1, setup_calls := 1 }
      | .ok b =>
          { result := .ok b,
            state := { playwright := some p, playwright_browser := some b },
            start_calls := 1, setup_calls := 1 }

/-- Browser.get_playwright_browser: return the stored handle if present,
otherwise run _init. -/
def get_playwright_browser (s : BrowserState) (env : InitEnv) : ConnectTrace :=
  match s.playwright_browser with
  | some b => { result := .ok b, state := s, start_calls := 0, setup_calls := 0 }
  | none => init_browser s env

/-- Program counter of one async caller of get_playwright_browser, cut at
the await points of the source.  ready: about to run the None check (no
suspension between entry and the check).  in_start: suspended inside
await async_playwright().start().  in_setup p: start() returned driver p and
the caller is suspended inside await self._setup_browser(playwright).
done b: returned handle b.  The step out of in_setup performs the two field
assignments and the return atomically, since no await separates them. -/
inductive CallerPC
  | ready
  | in_start
  | in_setup (p : Nat)
  | done (b : Nat)
deriving DecidableEq, Repr

/-- Oracle for the two-caller interleaving model: the driver handle id that
caller i obtains from start() and the browser handle id its strategy
execution creates (the success case, which is the case the single-handle
claim is about). -/
structure ConcEnv where
  startId : Fin 2 → Nat
  browserId : Fin 2 → Nat

/-- Global state of the two-caller model: the shared Browser fields, each
caller program counter, and the total number of strategy executions
(_setup_browser runs) performed so far. -/
structure ConcState where
  shared : BrowserState
  pcs : Fin 2 → CallerPC
  setup_runs : Nat

/-- Pointwise update of the caller table. -/
def updatePC (pcs : Fin 2 → CallerPC) (i : Fin 2) (v : CallerPC) : Fin 2 → CallerPC :=
  fun j => if j = i then v else pcs j

/-- One cooperative scheduler step running caller i up to its next await
point (or to completion), exactly as asyncio would: the None check and the
entry into _init are atomic; start() resolving moves the caller into the
strategy await; the strategy resolving performs the assignments and the
return atomically.  A finished caller is a no-op. -/
def concStep (env : ConcEnv) (st : ConcState) (i : Fin 2) : ConcState :=
  match st.pcs i with
  | .ready =>
      match st.shared.playwright_browser with
      | some b => { st with pcs := updatePC st.pcs i (.done b) }
      | none => { st with pcs := updatePC st.pcs i .in_start }
  | .in_start => { st with pcs := updatePC st.pcs i (.in_setup (env.startId i)) }
  | .in_setup p =>
      { shared := { playwright := some p, playwright_browser := some (env.browserId i) },
        pcs := updatePC st.pcs i (.done (env.browserId i)),
        setup_runs := st.setup_runs + 1 }
  | .done _ => st

/-- Both callers at their entry point over an unconnected Browser. -/
def initConcState : ConcState :=
  { shared := { playwright := none, playwright_browser := none },
    pcs := fun _ => .ready,
    setup_runs := 0 }

/-- Run a schedule of cooperative steps from the initial state. -/
def concRun (env : ConcEnv) (sched : List (Fin 2)) : ConcState :=
  sched.foldl (concStep env) initConcState

/-- A concrete oracle for the interleaving counterexample: caller i gets
driver handle 10 + i and its strategy creates browser handle 100 + i. -/
def ceEnv : ConcEnv :=
  { startId := fun i => 10 + i.val, browserId := fun i => 100 + i.val }

/-- A configuration with all three remote-strategy fields set at once. -/
def cfgAllRemote : BrowserConfig :=
  { cdp_url := some ("http://localhost:9000"),
    wss_url := some ("ws://localhost:9001"),
    chrome_instance_path := some ("/usr/bin/google-chrome") }

/-- A configuration selecting the local-instance strategy. -/
def cfgInst : BrowserConfig :=
  { chrome_instance_path := some ("/usr/bin/google-chrome") }

/-- A default configuration (keep-alive flag unset). -/
def cfgDefault : BrowserConfig := {}

/-- A configuration with the keep-alive override flag set. -/
def cfgKeep : BrowserConfig := { force_keep_browser_alive := true }

/-- A Browser whose connection already succeeded: driver 7, handle 42. -/
def connectedState : BrowserState :=
  { playwright := some 7, playwright_browser := some 42 }

/-- A Browser holding driver 1 and handle 2. -/
def stFull : BrowserState := { playwright := some 1, playwright_browser := some 2 }

/-- An init oracle in which both external calls would succeed. -/
def okEnv : InitEnv := { start := .ok 6, setup := .ok 99 }

/-- An init oracle in which the driver starts but strategy execution fails. -/
def failSetupEnv : InitEnv := { start := .ok 5, setup := .error () }

/-- A teardown oracle in which both underlying calls raise. -/
def envFailClose : CloseEnv :=
  { browser_close := .error (), playwright_stop := .error () }

/-- An instance-strategy oracle with a reachable endpoint: every probe
answers 200 and the attach hands back handle 77. -/
def envReuse : InstanceEnv :=
  { probes := fun _ => .status 200, spawn := .ok (), attach := .ok 77 }

/-- An instance-strategy oracle for a dead endpoint: every probe is a
refused connection and the attach fails. -/
def envDead : InstanceEnv :=
  { probes := fun _ => .connError, spawn := .ok (), attach := .error () }

/-- An instance-strategy oracle whose first probe times out while reading
(requests.ReadTimeout, which is not a requests.ConnectionError). -/
def envTimeoutProbe : InstanceEnv :=
  { probes := fun _ => .readTimeout, spawn := .ok (), attach := .ok 3 }

end BrowserUse

namespace BrowserUse

/-! Helper lemmas shared by several teardown results. -/

/-- Whatever the flag, state and oracle, close() lets no exception escape. -/
theorem close_raised_eq_false (cfg : BrowserConfig) (s : BrowserState) (env : CloseEnv) :
    (close cfg s env).raised = false := by
  unfold close
  cases h : close_body cfg s env with
  | ok r => obtain ⟨bc, sc⟩ := r; rfl
  | error r => obtain ⟨bc, sc⟩ := r; rfl

/-- Whatever the flag, state and oracle, close() clears both references. -/
theorem close_state_cleared (cfg : BrowserConfig) (s : BrowserState) (env : CloseEnv) :
    (close cfg s env).state = { playwright := none, playwright_browser := none } := by
  unfold close
  cases h : close_body cfg s env with
  | ok r => obtain ⟨bc, sc⟩ := r; rfl
  | error r => obtain ⟨bc, sc⟩ := r; rfl

/-- On an already-cleared Browser, close() makes no underlying call, logs
nothing, and leaves the cleared state. -/
theorem close_on_cleared (cfg : BrowserConfig) (env : CloseEnv) :
    close cfg { playwright := none, playwright_browser := none } env =
      { browser_close_calls := 0, stop_calls := 0,
        state := { playwright := none, playwright_browser := none },
        raised := false, logged := false } := by
  unfold close close_body close_stop_step
  cases h : cfg.force_keep_browser_alive <;> simp

/-- C2: strategy selection in Browser._setup_browser invokes exactly one
strategy, the first applicable by the fixed precedence cdp_url, then
wss_url, then chrome_instance_path, then standard launch, regardless of how
many of the fields are set. -/
theorem setup_browser_picks_exactly_one_by_precedence (cfg : BrowserConfig) :
    (setup_browser_attempts cfg).length = 1 ∧
    (truthy cfg.cdp_url = true → setup_browser_attempts cfg = [.setup_cdp]) ∧
    (truthy cfg.cdp_url = false → truthy cfg.wss_url = true →
      setup_browser_attempts cfg = [.setup_wss]) ∧
    (truthy cfg.cdp_url = false → truthy cfg.wss_url = false →
      truthy cfg.chrome_instance_path = true →
      setup_browser_attempts cfg = [.setup_browser_with_instance]) ∧
    (truthy cfg.cdp_url = false → truthy cfg.wss_url = false →
      truthy cfg.chrome_instance_path = false →
      setup_browser_attempts cfg = [.setup_standard_browser]) := by
  unfold setup_browser_attempts
  cases h1 : truthy cfg.cdp_url <;> cases h2 : truthy cfg.wss_url <;>
    cases h3 : truthy cfg.chrome_instance_path <;> simp

/-- C2 witness: with all three remote fields set, only the cdp strategy is
attempted. -/
theorem setup_browser_precedence_witness :
    setup_browser_attempts cfgAllRemote = [.setup_cdp] :=
  (setup_browser_picks_exactly_one_by_precedence cfgAllRemote).2.1 (by decide)

/-- C6: when a handle is already stored, get_playwright_browser returns
exactly that handle, changes nothing, and invokes neither the driver start
nor strategy selection. -/
theorem get_playwright_browser_idempotent (s : BrowserState) (env : InitEnv) (b : Nat)
    (h : s.playwright_browser = some b) :
    get_playwright_browser s env =
      { result := .ok b, state := s, start_calls := 0, setup_calls := 0 } := by
  unfold get_playwright_browser
  rw [h]

/-- C6 witness: a connected Browser hands back its stored handle 42 with no
external call, even though the oracle offers a fresh handle 99. -/
theorem get_playwright_browser_idempotent_witness :
    get_playwright_browser connectedState okEnv =
      { result := .ok 42, state := connectedState, start_calls := 0, setup_calls := 0 } :=
  get_playwright_browser_idempotent connectedState okEnv 42 rfl

/-- C7: if strategy execution fails, get_playwright_browser propagates the
error, leaves both references None, and a later call with a succeeding
oracle connects cleanly from that initial state. -/
theorem init_failure_stores_no_partial_handle (env : InitEnv) (p : Nat) (e : Unit)
    (hstart : env.start = .ok p) (hsetup : env.setup = .error e) :
    (get_playwright_browser { playwright := none, playwright_browser := none } env).result
        = .error e ∧
    (get_playwright_browser { playwright := none, playwright_browser := none } env).state
        = { playwright := none, playwright_browser := none } ∧
    (∀ (env2 : InitEnv) (p2 b2 : Nat), env2.start = .ok p2 → env2.setup = .ok b2 →
      get_playwright_browser
          ((get_playwright_browser
            { playwright := none, playwright_browser := none } env).state) env2 =
        { result := .ok b2,
          state := { playwright := some p2, playwright_browser := some b2 },
          start_calls := 1, setup_calls := 1 }) := by
  refine ⟨?_, ?_, ?_⟩
  · simp [get_playwright_browser, init_browser, hstart, hsetup]
  · simp [get_playwright_browser, init_browser, hstart, hsetup]
  · intro env2 p2 b2 h2 h3
    simp [get_playwright_browser, init_browser, hstart, hsetup, h2, h3]

/-- C7 witness: with a concrete failing oracle the error surfaces, the state
stays unconnected, and a retry with a succeeding oracle stores handle 99. -/
theorem init_failure_stores_no_partial_handle_witness :
    (get_playwright_browser
        { playwright := none, playwright_browser := none } failSetupEnv).result
      = .error () ∧
    (get_playwright_browser
        { playwright := none, playwright_browser := none } failSetupEnv).state
      = { playwright := none, playwright_browser := none } ∧
    get_playwright_browser
        ((get_playwright_browser
          { playwright := none, playwright_browser := none } failSetupEnv).state) okEnv =
      { result := .ok 99,
        state := { playwright := some 6, playwright_browser := some 99 },
        start_calls := 1, setup_calls := 1 } := by
  obtain ⟨h1, h2, h3⟩ :=
    init_failure_stores_no_partial_handle failSetupEnv 5 () rfl rfl
  exact ⟨h1, h2, h3 okEnv 6 99 rfl rfl⟩

/-- C8: with the keep-alive override flag set, close() performs no underlying
browser close and no driver stop, yet clears both references. -/
theorem close_keep_alive_skips_teardown (cfg : BrowserConfig) (s : BrowserState)
    (env : CloseEnv) (h : cfg.force_keep_browser_alive = true) :
    close cfg s env =
      { browser_close_calls := 0, stop_calls := 0,
        state := { playwright := none, playwright_browser := none },
        raised := false, logged := false } := by
  simp [close, close_body, h]

/-- C8 witness: keep-alive Browser with live handles and an oracle in which
both teardown calls would raise: neither is invoked, state is cleared. -/
theorem close_keep_alive_skips_teardown_witness :
    close cfgKeep stFull envFailClose =
      { browser_close_calls := 0, stop_calls := 0,
        state := { playwright := none, playwright_browser := none },
        raised := false, logged := false } :=
  close_keep_alive_skips_teardown cfgKeep stFull envFailClose rfl

/-- C10: with the keep-alive flag unset, if the underlying browser close
raises then the driver stop is never attempted, the failure is logged and
swallowed, and both references are still cleared. -/
theorem close_failure_skips_stop_still_clears (cfg : BrowserConfig) (s : BrowserState)
    (env : CloseEnv) (b : Nat)
    (hflag : cfg.force_keep_browser_alive = false)
    (hb : s.playwright_browser = some b)
    (hfail : env.browser_close = .error ()) :
    close cfg s env =
      { browser_close_calls := 1, stop_calls := 0,
        state := { playwright := none, playwright_browser := none },
        raised := false, logged := true } := by
  simp [close, close_body, hflag, hb, hfail]

/-- C10 witness: a default-config Browser with both handles live and a
teardown oracle whose browser close raises: one close call, zero stop
calls, cleared state, nothing raised. -/
theorem close_failure_skips_stop_still_clears_witness :
    close cfgDefault stFull envFailClose =
      { browser_close_calls := 1, stop_calls := 0,
        state := { playwright := none, playwright_browser := none },
        raised := false, logged := true } :=
  close_failure_skips_stop_still_clears cfgDefault stFull envFailClose 2 rfl rfl rfl

/-- C5: close() never raises and always clears both references; a second
close() from the cleared state again raises nothing, clears again, and makes
no underlying call; close() before any successful connection is a no-op. -/
theorem close_never_raises_and_is_idempotent (cfg : BrowserConfig) (s : BrowserState)
    (env env2 env3 : CloseEnv) :
    (close cfg s env).raised = false ∧
    (close cfg s env).state = { playwright := none, playwright_browser := none } ∧
    (close cfg ((close cfg s env).state) env2).raised = false ∧
    (close cfg ((close cfg s env).state) env2).state =
      { playwright := none, playwright_browser := none } ∧
    (close cfg ((close cfg s env).state) env2).browser_close_calls = 0 ∧
    (close cfg ((close cfg s env).state) env2).stop_calls = 0 ∧
    (close cfg { playwright := none, playwright_browser := none } env3).browser_close_calls
      = 0 ∧
    (close cfg { playwright := none, playwright_browser := none } env3).stop_calls = 0 := by
  have h2 := close_state_cleared cfg s env
  refine ⟨close_raised_eq_false cfg s env, h2, ?_, ?_, ?_, ?_, ?_, ?_⟩ <;>
    first
      | (rw [h2]; simp [close_on_cleared])
      | simp [close_on_cleared]

end BrowserUse

namespace BrowserUse

/-- C9: when the initial reuse probe answers 200, the strategy never spawns
a process, performs exactly the one direct attach, and returns its handle. -/
theorem instance_reachable_endpoint_no_spawn (cfg : BrowserConfig) (env : InstanceEnv)
    (b : Nat)
    (hpath : truthy cfg.chrome_instance_path = true)
    (hprobe : env.probes 0 = .status 200)
    (hattach : env.attach = .ok b) :
    setup_browser_with_instance cfg env =
      { probeCalls := 1, spawnCalls := 0, attachCalls := 1, sleeps := 0,
        result := .ok b } := by
  unfold setup_browser_with_instance
  rw [hpath, hprobe, hattach]
  rfl

/-- C9 witness: with the concrete reachable-endpoint oracle, the strategy
makes one probe, zero spawns, one attach, and returns handle 77. -/
theorem instance_reachable_endpoint_no_spawn_witness :
    setup_browser_with_instance cfgInst envReuse =
      { probeCalls := 1, spawnCalls := 0, attachCalls := 1, sleeps := 0,
        result := .ok 77 } :=
  instance_reachable_endpoint_no_spawn cfgInst envReuse 77 (by decide) rfl rfl

/-- When every probe is a refused connection, the poll loop uses all its
fuel: one probe and one sleep per iteration, ending exhausted. -/
theorem pollLoop_all_connError (env : InstanceEnv)
    (h : ∀ k, env.probes k = .connError) (fuel : Nat) :
    ∀ idx, pollLoop env idx fuel =
      { probeCalls := fuel, sleeps := fuel, outcome := .exhausted } := by
  induction fuel with
  | zero => intro idx; rfl
  | succ f ih =>
      intro idx
      unfold pollLoop
      rw [h idx]
      simp [ih (idx + 1)]

/-- C4: with the endpoint never reachable (every probe refused, final attach
failing) the poll loop performs exactly 10 probe attempts with a 1-second
sleep after each, and the strategy ends in the fatal RuntimeError after 11
probes in total: the 1 initial reuse check plus exactly the 10 poll
attempts, no more and no fewer. -/
theorem instance_unreachable_fatal_after_ten_polls (cfg : BrowserConfig)
    (env : InstanceEnv)
    (hpath : truthy cfg.chrome_instance_path = true)
    (hprobes : ∀ k, env.probes k = .connError)
    (hspawn : env.spawn = .ok ())
    (hattach : env.attach = .error ()) :
    pollLoop env 1 10 = { probeCalls := 10, sleeps := 10, outcome := .exhausted } ∧
    setup_browser_with_instance cfg env =
      { probeCalls := 11, spawnCalls := 1, attachCalls := 1, sleeps := 10,
        result := .error .runtimeError } := by
  have hpoll := pollLoop_all_connError env hprobes 10 1
  refine ⟨hpoll, ?_⟩
  unfold setup_browser_with_instance instanceSpawnPhase
  rw [hpath, hprobes 0, hspawn, hattach, hpoll]
  rfl

/-- C4 witness: the dead-endpoint oracle yields the exhausted 10-probe poll
trace and the RuntimeError strategy trace. -/
theorem instance_unreachable_fatal_after_ten_polls_witness :
    pollLoop envDead 1 10 = { probeCalls := 10, sleeps := 10, outcome := .exhausted } ∧
    setup_browser_with_instance cfgInst envDead =
      { probeCalls := 11, spawnCalls := 1, attachCalls := 1, sleeps := 10,
        result := .error .runtimeError } :=
  instance_unreachable_fatal_after_ten_polls cfgInst envDead (by decide)
    (fun _ => rfl) rfl rfl

/-- C3 counterexample: a read timeout on the initial reuse probe, an
ordinary form of unreachability (requests.Timeout is not a
requests.ConnectionError, so the except clause does not catch it), escapes
the strategy as an exception instead of being treated as not reachable. -/
theorem probe_read_timeout_escapes_strategy :
    (setup_browser_with_instance cfgInst envTimeoutProbe).result =
      .error (.uncaughtProbe .readTimeout) := by
  rfl

/-- When every probe is either a refused connection or an HTTP status, the
poll loop never ends by raising. -/
theorem pollLoop_never_raises (env : InstanceEnv)
    (h : ∀ k, env.probes k = .connError ∨ ∃ c, env.probes k = .status c) :
    ∀ fuel idx e, (pollLoop env idx fuel).outcome ≠ .raised e := by
  intro fuel
  induction fuel with
  | zero => intro idx e; simp [pollLoop]
  | succ f ih =>
      intro idx e
      unfold pollLoop
      rcases h idx with hc | ⟨c, hc⟩
      · rw [hc]
        exact ih (idx + 1) e
      · rw [hc]
        by_cases h200 : c = 200
        · simp [h200]
        · simpa [h200] using ih (idx + 1) e

/-- With probes limited to refused connections and HTTP statuses, the
spawn-and-poll phase never ends in an uncaught probe exception: its result
is a launch failure, a success, or the final RuntimeError. -/
theorem instanceSpawnPhase_no_uncaught (env : InstanceEnv)
    (h : ∀ k, env.probes k = .connError ∨ ∃ c, env.probes k = .status c)
    (e : ProbeOutcome) :
    (instanceSpawnPhase env).result ≠ .error (.uncaughtProbe e) := by
  unfold instanceSpawnPhase
  cases hs : env.spawn with
  | error u => simp
  | ok u =>
      cases ho : (pollLoop env 1 10).outcome with
      | raised e2 => exact absurd ho (pollLoop_never_raises env h 10 1 e2)
      | reachable =>
          cases ha : env.attach with
          | ok b => simp
          | error u2 => simp
      | exhausted =>
          cases ha : env.attach with
          | ok b => simp
          | error u2 => simp

/-- C3 amended: every probe outcome the except clauses actually cover, that
is a requests.ConnectionError (which includes connect timeouts) or any HTTP
status (success or not), is treated as not reachable, and the strategy then
never ends in an uncaught probe exception; but a probe exception outside
requests.ConnectionError, such as a read timeout, does escape (see the
counterexample). -/
theorem probe_conn_failures_never_escape (cfg : BrowserConfig) (env : InstanceEnv)
    (h : ∀ k, env.probes k = .connError ∨ ∃ c, env.probes k = .status c) :
    ∀ e, (setup_browser_with_instance cfg env).result ≠ .error (.uncaughtProbe e) := by
  intro e
  unfold setup_browser_with_instance
  cases hpath : truthy cfg.chrome_instance_path with
  | false => simp
  | true =>
      simp only [Bool.true_eq_false, if_false]
      rcases h 0 with hc | ⟨c, hc⟩
      · rw [hc]
        exact instanceSpawnPhase_no_uncaught env h e
      · rw [hc]
        by_cases h200 : c = 200
        · subst h200
          cases ha : env.attach with
          | ok b => simp
          | error u => simp
        · simpa [h200] using instanceSpawnPhase_no_uncaught env h e

/-- C3 amended witness: under the all-connection-refused oracle the strategy
ends in the RuntimeError, not in an escaped probe exception. -/
theorem probe_conn_failures_never_escape_witness :
    (setup_browser_with_instance cfgInst envDead).result ≠
      .error (.uncaughtProbe .readTimeout) :=
  probe_conn_failures_never_escape cfgInst envDead (fun _ => Or.inl rfl) .readTimeout

end BrowserUse

namespace BrowserUse

/-- C1 counterexample: two callers of get_playwright_browser interleaved at
the await points of the source (schedule 0,1,0,1,0,1: both pass the None
check before either finishes) each execute the strategy, so two handles,
100 and 101, are created, the strategy runs twice, the callers return
different handles, and the stored handle is the last writer's. -/
theorem concurrent_get_browser_duplicates_strategy :
    (concRun ceEnv [0, 1, 0, 1, 0, 1]).setup_runs = 2 ∧
    (concRun ceEnv [0, 1, 0, 1, 0, 1]).pcs 0 = .done 100 ∧
    (concRun ceEnv [0, 1, 0, 1, 0, 1]).pcs 1 = .done 101 ∧
    (concRun ceEnv [0, 1, 0, 1, 0, 1]).shared.playwright_browser = some 101 :=
  ⟨rfl, rfl, rfl, rfl⟩

/-- C1 amended: get_playwright_browser performs no mutual exclusion, so two
callers interleaved before the first success (schedule 0,1,0,1,0,1) each
run the strategy and obtain their own handle; the stored single handle is
only observed by a caller whose None check runs after a creation completed,
as in the sequential schedule 0,0,0,1 where the strategy runs once and both
callers return the first creation's handle. -/
theorem get_browser_unserialized_creation (env : ConcEnv) :
    ((concRun env [0, 1, 0, 1, 0, 1]).setup_runs = 2 ∧
     (concRun env [0, 1, 0, 1, 0, 1]).pcs 0 = .done (env.browserId 0) ∧
     (concRun env [0, 1, 0, 1, 0, 1]).pcs 1 = .done (env.browserId 1)) ∧
    ((concRun env [0, 0, 0, 1]).setup_runs = 1 ∧
     (concRun env [0, 0, 0, 1]).pcs 0 = .done (env.browserId 0) ∧
     (concRun env [0, 0, 0, 1]).pcs 1 = .done (env.browserId 0) ∧
     (concRun env [0, 0, 0, 1]).shared.playwright_browser = some (env.browserId 0)) :=
  ⟨⟨rfl, rfl, rfl⟩, ⟨rfl, rfl, rfl, rfl⟩⟩

end BrowserUse
